import Mathlib

/-! # vdockd: the virtual dock daemon

A shallow embedding of `vdockd.c`.  Operating-system and library calls are
replaced by a `World` that fixes the value every call returns; a run of
`RunDaemon` is then a pure function from the options and the world to the
sequence of calls it makes (the trace) and its return code.
-/

namespace Vdockd

/-! ## Constants of the source and of the system headers it includes -/

/-- `DOCK = 0` of `Event_t`. -/
abbrev DOCK : Int := 0
/-- `UNDOCK = 1` of `Event_t`. -/
abbrev UNDOCK : Int := 1
/-- `_NUM_EVTS` of `Event_t`, the enumerator after `UNDOCK`. -/
abbrev _NUM_EVTS : Int := 2
/-- `_UNSET = -1` of `Event_t`. -/
abbrev _UNSET : Int := -1

/-- The table `EventMap`, indexed by event. -/
def EventMap : List String := ["DOCK", "UNDOCK"]

abbrev DEFAULT_SOCKET : String := "/run/vdockd.socket"
abbrev DEFAULT_DEVNAME : String := "Virtual Dock"
abbrev DEFAULT_VENDOR : Nat := 0x1337
abbrev DEFAULT_PRODUCT : Nat := 0x1337

/-- `EV_SYN` of linux/input-event-codes.h. -/
abbrev EV_SYN : Nat := 0
/-- `EV_SW` of linux/input-event-codes.h. -/
abbrev EV_SW : Nat := 5
/-- `SYN_REPORT` of linux/input-event-codes.h. -/
abbrev SYN_REPORT : Nat := 0
/-- `SW_DOCK` of linux/input-event-codes.h. -/
abbrev SW_DOCK : Nat := 5

abbrev EINTR : Nat := 4
abbrev EACCES : Nat := 13
abbrev EINVAL : Nat := 22
abbrev ERANGE : Nat := 34
abbrev EADDRINUSE : Nat := 98
abbrev ETIMEDOUT : Nat := 110

abbrev SIGINT : Nat := 2
abbrev SIGTERM : Nat := 15

/-- The array `SignalList`. -/
def SignalList : List Nat := [SIGINT, SIGTERM]

/-- The value of `sizeof(addr.sun_path)` for `struct sockaddr_un` on Linux. -/
abbrev SUN_PATH_SIZE : Nat := 108

/-! ## Data model -/

/-- The struct `Opts_t`.  `event` holds an `Event_t` (an `int`), the two ids
are `uint16_t`. -/
structure Opts_t where
  socket : String
  name : String
  event : Int
  vendor : Nat
  product : Nat
  daemon : Bool
  verbose : Bool
  deriving DecidableEq, Repr

/-- One observable action of the daemon: a call into the operating system,
libevdev or systemd together with the value it returned, or a line printed to
stdout or stderr (named by the text of its format). -/
inductive Call where
  | msg (text : String)
  | socket (ret : Int)
  | bind (fd : Int) (ret : Int)
  | connect (fd : Int) (ret : Int)
  | unlink (path : String)
  | fchmod (fd : Int) (mode : Nat) (ret : Int)
  | libevdev_new (ok : Bool)
  | uinput_create (rv : Int)
  | listen (fd : Int) (backlog : Nat) (ret : Int)
  | sigaction (sig : Nat) (handler : String) (ret : Int)
  | sd_notify (state : String)
  | accept (fd : Int) (ret : Int)
  | setsockopt (client : Int) (ret : Int)
  | recv (client : Int) (ret : Int)
  | shutdown (fd : Int)
  | close (fd : Int)
  | write_event (type : Nat) (code : Nat) (value : Int)
  | uinput_destroy
  | libevdev_free
  deriving DecidableEq, Repr

/-- What the outside world does during one pass through the body of the accept
loop: the value and `errno` of each call the body may make, the byte `recv`
stores when it returns 1, and whether `SignalHandler` ran during the pass (so
that `CaughtSignal` is set at the next test of the loop condition). -/
structure Iter where
  accept : Int
  acceptErrno : Nat
  setsockopt : Int
  setsockoptErrno : Nat
  recv : Int
  recvErrno : Nat
  byte : Nat
  signal : Bool

/-- The results of every call `RunDaemon` makes.  Calls that the code can
reach more than once (`socket`, `bind`, `connect`, `unlink` of the stale path)
are indexed by the number of the pass through the label `_create_socket`. -/
structure World where
  /-- Whether plain `char` is signed on the platform. -/
  signedChar : Bool
  socket : Nat → Int
  bind : Nat → Int
  bindErrno : Nat → Nat
  connect : Nat → Int
  unlinkStale : Nat → Int
  fchmod : Int
  libevdev_new : Bool
  uinput_create : Int
  listen : Int
  /-- Results of `sigaction` inside `AllowSignals`, by index into `SignalList`. -/
  allowSigaction : Nat → Int
  /-- Whether a signal arrives between `AllowSignals` and the first test of the
  loop condition. -/
  pending : Bool
  iters : List Iter
  /-- Results of `sigaction` inside the `IgnoreSignals` after the loop. -/
  ignoreSigaction : Nat → Int

/-- The outcome of a run: the calls made, in order, and the value returned;
`ret = none` when the described world ends with the daemon still in its accept
loop. -/
structure Result where
  trace : List Call
  ret : Option Int

/-- Put the calls `evs` in front of the trace of `r`. -/
def pre (evs : List Call) (r : Result) : Result :=
  { r with trace := evs ++ r.trace }

/-! ## Signal set-up -/

/-- The `for` loop shared by `IgnoreSignals` and `AllowSignals`: `sigaction` on
each entry of `SignalList`; the first failure prints and returns `true`. -/
def sigactionLoop (handler : String) (res : Nat → Int) : Nat → List Nat → List Call × Bool
  | _, [] => ([], false)
  | i, s :: rest =>
    if res i = -1 then
      ([Call.sigaction s handler (res i), Call.msg "sigaction()"], true)
    else
      let r := sigactionLoop handler res (i + 1) rest
      (Call.sigaction s handler (res i) :: r.1, r.2)

/-- `IgnoreSignals`: calls made and the returned flag (`true` on failure). -/
def IgnoreSignals (res : Nat → Int) : List Call × Bool :=
  sigactionLoop "SIG_IGN" res 0 SignalList

/-- `AllowSignals`: calls made and the returned flag (`true` on failure).  It
also clears `CaughtSignal`. -/
def AllowSignals (res : Nat → Int) : List Call × Bool :=
  sigactionLoop "SignalHandler" res 0 SignalList

/-! ## The daemon -/

/-- The code after the label `_return` of `RunDaemon`, from the values the
local variables have there. -/
def cleanup (opts : Opts_t) (uidev dev : Bool) (fd : Int) (unlink_socket : Bool)
    (ret : Int) : Result :=
  { trace :=
      (if uidev then
        (if opts.verbose then [Call.msg "Removing uinput device"] else [])
          ++ [Call.uinput_destroy]
       else []) ++
      (if dev then [Call.libevdev_free] else []) ++
      (if fd ≠ -1 then
        Call.close fd :: (if unlink_socket then [Call.unlink opts.socket] else [])
       else []),
    ret := some ret }

/-- The conversion `Event_t event = byte` from a received byte (0..255) held
in a plain `char`. -/
def charToEvent (signedChar : Bool) (byte : Nat) : Int :=
  if signedChar && decide (128 ≤ byte) then (byte : Int) - 256 else (byte : Int)

/-- The code after the label `_close` up to the `if (data)`. -/
def closeClient (client : Int) : List Call :=
  if client ≠ -1 then [Call.shutdown client, Call.close client] else []

/-- The `if (data)` block that ends the loop body. -/
def applyEvent (opts : Opts_t) (signedChar : Bool) (data : Bool) (byte : Nat) : List Call :=
  if data then
    let event := charToEvent signedChar byte
    if event ≥ _NUM_EVTS ∨ event < 0 then
      (if opts.verbose then [Call.msg "Received invalid event"] else [])
    else
      (if opts.verbose then [Call.msg "Received event"] else []) ++
      (if event = DOCK then [Call.write_event EV_SW SW_DOCK 1]
       else if event = UNDOCK then [Call.write_event EV_SW SW_DOCK 0]
       else []) ++
      [Call.write_event EV_SYN SYN_REPORT 0]
  else []

/-- One pass through the body of `while (!CaughtSignal)`: the calls it makes.
Every path through the body ends at the loop condition. -/
def LoopBody (opts : Opts_t) (signedChar : Bool) (fd : Int) (it : Iter) : List Call :=
  let client := it.accept
  if client = -1 then
    [Call.accept fd client]
      ++ (if it.acceptErrno ≠ EINTR then [Call.msg "accept()"] else [])
      ++ closeClient client ++ applyEvent opts signedChar false it.byte
  else if it.setsockopt = -1 then
    [Call.accept fd client, Call.setsockopt client it.setsockopt]
      ++ (if it.setsockoptErrno ≠ EINTR then [Call.msg "setsockopt()"] else [])
      ++ closeClient client ++ applyEvent opts signedChar false it.byte
  else if it.recv ≠ 1 then
    [Call.accept fd client, Call.setsockopt client it.setsockopt, Call.recv client it.recv]
      ++ (if it.recvErrno = ETIMEDOUT then [Call.msg "Client timed out."] else [])
      ++ closeClient client ++ applyEvent opts signedChar false it.byte
  else
    [Call.accept fd client, Call.setsockopt client it.setsockopt, Call.recv client it.recv]
      ++ closeClient client ++ applyEvent opts signedChar true it.byte

/-- The code from `if (IgnoreSignals())` after the loop to the end. -/
def afterLoop (opts : Opts_t) (w : World) (fd : Int) (unlink_socket : Bool) : Result :=
  let r := IgnoreSignals w.ignoreSigaction
  if r.2 then pre r.1 (cleanup opts true true fd unlink_socket 1)
  else pre r.1 (cleanup opts true true fd unlink_socket 0)

/-- The loop `while (!CaughtSignal)` and what follows it.  The first argument
is the value of `CaughtSignal` at the test of the condition, `ret` the value of
the variable `ret` there. -/
def acceptLoop (opts : Opts_t) (w : World) (fd : Int) (unlink_socket : Bool) :
    Bool → Int → List Iter → Result
  | true, _, _ => afterLoop opts w fd unlink_socket
  | false, _, [] => { trace := [], ret := none }
  | false, ret, it :: rest =>
    pre (LoopBody opts w.signedChar fd it)
      (acceptLoop opts w fd unlink_socket it.signal ret rest)

/-- The code of `RunDaemon` from the `fchmod` (reached once `bind` has
succeeded on `fd`) to the end. -/
def afterBind (opts : Opts_t) (w : World) (fd : Int) (unlink_socket : Bool) : Result :=
  if w.fchmod = -1 then
    pre [Call.fchmod fd 0o600 w.fchmod, Call.msg "chmod()"]
      (cleanup opts false false fd unlink_socket 1)
  else if w.libevdev_new = false then
    pre [Call.fchmod fd 0o600 w.fchmod, Call.libevdev_new false,
         Call.msg "libevdev_new() failed."]
      (cleanup opts false false fd unlink_socket 1)
  else if w.uinput_create ≠ 0 then
    pre [Call.fchmod fd 0o600 w.fchmod, Call.libevdev_new true,
         Call.uinput_create w.uinput_create,
         Call.msg "libevdev_uinput_create_from_device(): error"]
      (cleanup opts false true fd unlink_socket 1)
  else
    let created : List Call :=
      [Call.fchmod fd 0o600 w.fchmod, Call.libevdev_new true,
       Call.uinput_create w.uinput_create]
        ++ (if opts.verbose then [Call.msg "Created uinput device"] else [])
    if w.listen = -1 then
      pre (created ++ [Call.listen fd 16 w.listen, Call.msg "listen()"])
        (cleanup opts true true fd unlink_socket 1)
    else
      let listening : List Call :=
        created ++ [Call.listen fd 16 w.listen]
          ++ (if opts.verbose then [Call.msg "Listening on socket"] else [])
      let a := AllowSignals w.allowSigaction
      if a.2 then
        pre (listening ++ a.1) (cleanup opts true true fd unlink_socket 1)
      else
        pre (listening ++ a.1 ++ [Call.sd_notify "READY=1"])
          (acceptLoop opts w fd unlink_socket w.pending 1 w.iters)

/-- The code of `RunDaemon` from the label `_create_socket`; `n` counts the
passes through the label and `retry` is the variable of that name. -/
def createSocket (opts : Opts_t) (w : World) (n : Nat) (retry : Bool) : Result :=
  let fd := w.socket n
  if fd = -1 then
    pre [Call.socket fd, Call.msg "socket()"] (cleanup opts false false fd true 1)
  else
    let rv := w.bind n
    if rv = -1 then
      if h : retry = true ∨ w.bindErrno n ≠ EADDRINUSE then
        pre [Call.socket fd, Call.bind fd rv, Call.msg "bind()"]
          (cleanup opts false false fd true 1)
      else if w.connect n ≠ -1 then
        pre [Call.socket fd, Call.bind fd rv, Call.connect fd (w.connect n),
             Call.msg "Another instance is running on socket"]
          (cleanup opts false false fd false 1)
      else if w.unlinkStale n = -1 then
        pre [Call.socket fd, Call.bind fd rv, Call.connect fd (w.connect n),
             Call.unlink opts.socket, Call.msg "unlink()"]
          (cleanup opts false false fd true 1)
      else
        pre [Call.socket fd, Call.bind fd rv, Call.connect fd (w.connect n),
             Call.unlink opts.socket]
          (createSocket opts w (n + 1) true)
    else
      pre [Call.socket fd, Call.bind fd rv] (afterBind opts w fd true)
termination_by (if retry then 0 else 1)
decreasing_by
  simp only [not_or, Bool.not_eq_true] at h
  simp [h.1]

/-- The function `RunDaemon`.  The jump to `_return` for a path that is too
long passes the initialiser of `unlink_socket`; the variable is not read
there because `fd` is -1. -/
def RunDaemon (opts : Opts_t) (w : World) : Result :=
  if opts.socket.utf8ByteSize ≥ SUN_PATH_SIZE then
    pre [Call.msg "Socket name is too long!"] (cleanup opts false false (-1) true 1)
  else
    createSocket opts w 0 false

/-! ## Command line -/

/-- The C library function `isspace` in the C locale. -/
def isspace (c : Char) : Bool :=
  c.toNat = 32 || (decide (9 ≤ c.toNat) && decide (c.toNat ≤ 13))

/-- The value of a character as a digit, letters standing for 10 to 35. -/
def digitVal (c : Char) : Option Nat :=
  if 48 ≤ c.toNat ∧ c.toNat ≤ 57 then some (c.toNat - 48)
  else if 97 ≤ c.toNat ∧ c.toNat ≤ 122 then some (c.toNat - 97 + 10)
  else if 65 ≤ c.toNat ∧ c.toNat ≤ 90 then some (c.toNat - 65 + 10)
  else none

/-- The digits of the longest initial run of `s` that are digits in `base`. -/
def takeDigits (base : Nat) : List Char → List Nat
  | [] => []
  | c :: cs =>
    match digitVal c with
    | some d => if d < base then d :: takeDigits base cs else []
    | none => []

/-- The value `ULONG_MAX` for a 64-bit `unsigned long`. -/
abbrev ULONG_MAX : Nat := 2 ^ 64 - 1

/-- The C library function `strtoul(s, NULL, base)` for a base from 2 to 36,
after ISO C: white space, an optional sign, for base 16 an optional `0x`, then
the longest run of digits.  It returns the value and the `errno` it leaves,
given the `errno` it finds.  ISO C leaves it to the library whether `errno`
becomes `EINVAL` when no digits are found (glibc leaves `errno` alone, musl
sets it): `noconvEINVAL` selects that behaviour. -/
def strtoul (noconvEINVAL : Bool) (s : List Char) (base : Nat) (errno : Nat) : Nat × Nat :=
  let s1 := s.dropWhile isspace
  let neg : Bool := s1.head? = some (Char.ofNat 45)
  let s2 := if s1.head? = some (Char.ofNat 45) ∨ s1.head? = some (Char.ofNat 43) then s1.tail else s1
  let s3 :=
    match s2 with
    | z :: x :: h :: more =>
      if base = 16 ∧ z.toNat = 48 ∧ (x.toNat = 120 ∨ x.toNat = 88)
          ∧ ((digitVal h).any (fun d => decide (d < 16))) = true
      then h :: more else s2
    | _ => s2
  let ds := takeDigits base s3
  if ds = [] then (0, if noconvEINVAL then EINVAL else errno)
  else
    let v := ds.foldl (fun acc d => acc * base + d) 0
    if v > ULONG_MAX then (ULONG_MAX, ERANGE)
    else if neg then ((2 ^ 64 - v) % 2 ^ 64, errno)
    else (v, errno)

/-- The conversion of an `unsigned long` to `int` (32 bits, two's complement). -/
def toInt32 (v : Nat) : Int :=
  if v % 2 ^ 32 < 2 ^ 31 then ((v % 2 ^ 32 : Nat) : Int) else ((v % 2 ^ 32 : Nat) : Int) - 2 ^ 32

/-- The conversion of an `int` to `uint16_t`. -/
def toUInt16 (i : Int) : Nat := (i % 65536).toNat

/-- The outcome of `ParseInt`: the value returned, the flag stored through
`success`, and `errno` afterwards. -/
structure ParseIntResult where
  ret : Int
  success : Bool
  errno : Nat
  deriving DecidableEq, Repr

/-- The function `ParseInt`, called with a non-null `success`; `str = none`
is the null pointer.  `errno` is the value of `errno` at the call. -/
def ParseInt (noconvEINVAL : Bool) (str : Option String) (errno : Nat) : ParseIntResult :=
  match str with
  | none => { ret := 0, success := false, errno := errno }
  | some s =>
    let cs := s.toList
    let hex : Bool :=
      match cs with
      | z :: x :: _ => decide (z.toNat = 48) && (decide (x.toNat = 120) || decide (x.toNat = 88))
      | _ => false
    let r :=
      if hex then strtoul noconvEINVAL (cs.drop 2) 16 errno
      else if cs.head? = some (Char.ofNat 48) then strtoul noconvEINVAL (cs.drop 1) 8 errno
      else strtoul noconvEINVAL cs 10 errno
    { ret := toInt32 r.1, success := decide (r.2 ≠ EINVAL), errno := r.2 }

/-- The C library function `strcasecmp` in the C locale; only the sign of its
result is specified. -/
def strcasecmpAux : List Char → List Char → Int
  | [], [] => 0
  | [], _ :: _ => -1
  | _ :: _, [] => 1
  | a :: as, b :: bs =>
    if a.toLower = b.toLower then strcasecmpAux as bs
    else if a.toLower.toNat < b.toLower.toNat then -1 else 1

/-- The C library function `strcasecmp` on strings. -/
def strcasecmp (a b : String) : Int := strcasecmpAux a.toList b.toList

/-- What `getopt_long` does with the argument vector: the option characters it
returns one call after another, each with the `optarg` it sets, before it
returns -1; and `rest k`, the arguments `argv[optind .. argc)` once it has
been called for `k` options and the loop has been left. -/
structure Cmdline where
  getopt : List (Char × Option String)
  rest : Nat → List String

/-- The variables of `ParseOptions`, and `errno`. -/
structure ParseState where
  opts : Opts_t
  ret : Int
  _exit : Bool
  errno : Nat
  deriving DecidableEq, Repr

/-- How the option loop of `ParseOptions` ends: with one of its two `return
true` statements, or by leaving the loop after `k` options. -/
inductive LoopEnd where
  | returned (st : ParseState)
  | left (st : ParseState) (k : Nat)
  deriving DecidableEq, Repr

/-- The loop `while (!_exit)` of `ParseOptions` over the results of
`getopt_long`; `k` counts the options already taken. -/
def optionLoop (noconvEINVAL : Bool) : List (Char × Option String) → Nat → ParseState → LoopEnd
  | [], k, st => LoopEnd.left st k
  | (c, optarg) :: more, k, st =>
    if st._exit then LoopEnd.left st k
    else if c = 'd' then
      optionLoop noconvEINVAL more (k + 1) { st with opts := { st.opts with daemon := true } }
    else if c = 's' then
      optionLoop noconvEINVAL more (k + 1)
        { st with opts := { st.opts with socket := optarg.getD "" } }
    else if c = 'n' then
      optionLoop noconvEINVAL more (k + 1)
        { st with opts := { st.opts with name := optarg.getD "" } }
    else if c = 'e' then
      let r := ParseInt noconvEINVAL optarg st.errno
      let st1 := { st with opts := { st.opts with vendor := toUInt16 r.ret }, errno := r.errno }
      if r.success then optionLoop noconvEINVAL more (k + 1) st1
      else optionLoop noconvEINVAL more (k + 1) { st1 with ret := 1, _exit := true }
    else if c = 'p' then
      let r := ParseInt noconvEINVAL optarg st.errno
      let st1 := { st with opts := { st.opts with product := toUInt16 r.ret }, errno := r.errno }
      if r.success then optionLoop noconvEINVAL more (k + 1) st1
      else optionLoop noconvEINVAL more (k + 1) { st1 with ret := 1, _exit := true }
    else if c = 'v' then
      optionLoop noconvEINVAL more (k + 1) { st with opts := { st.opts with verbose := true } }
    else if c = 'h' then
      LoopEnd.returned st
    else
      LoopEnd.returned { st with ret := 1 }

/-- The loop `for (int i = 0; i < LENGTH(EventMap); i++)` of `ParseOptions`:
the index of the first name of `names` that `arg` matches. -/
def findEvent (arg : String) : List String → Nat → Option Nat
  | [], _ => none
  | name :: more, i => if strcasecmp arg name = 0 then some i else findEvent arg more (i + 1)

/-- The outcome of `ParseOptions`: the value returned, and the contents of
`*ret` and `*opts` afterwards. -/
structure ParseResult where
  exit : Bool
  ret : Int
  opts : Opts_t
  deriving DecidableEq, Repr

/-- The options `ParseOptions` starts from. -/
def defaultOpts : Opts_t :=
  { socket := DEFAULT_SOCKET, name := DEFAULT_DEVNAME, event := _UNSET,
    vendor := DEFAULT_VENDOR, product := DEFAULT_PRODUCT, daemon := false, verbose := false }

/-- The code of `ParseOptions` after the option loop. -/
def afterOptions (cl : Cmdline) (st : ParseState) (k : Nat) : ParseResult :=
  let args := cl.rest k
  if args ≠ [] then
    if st.opts.daemon then
      { exit := true, ret := 1, opts := st.opts }
    else
      match args with
      | [arg] =>
        match findEvent arg EventMap 0 with
        | some i => { exit := st._exit, ret := st.ret, opts := { st.opts with event := (i : Int) } }
        | none => { exit := true, ret := 1, opts := st.opts }
      | _ => { exit := true, ret := 1, opts := st.opts }
  else if !st._exit && !st.opts.daemon && decide (st.opts.event = _UNSET) then
    { exit := true, ret := 1, opts := st.opts }
  else
    { exit := st._exit, ret := st.ret, opts := st.opts }

/-- The function `ParseOptions`: `ret0` is the value of `*ret` and `errno0` the
value of `errno` at the call.  What it prints is left out. -/
def ParseOptions (noconvEINVAL : Bool) (cl : Cmdline) (errno0 : Nat) (ret0 : Int) : ParseResult :=
  match optionLoop noconvEINVAL cl.getopt 0
      { opts := defaultOpts, ret := ret0, _exit := false, errno := errno0 } with
  | LoopEnd.returned st => { exit := true, ret := st.ret, opts := st.opts }
  | LoopEnd.left st k => afterOptions cl st k

/-! ## Observations on traces -/

/-- Whether a call is a write to the virtual device. -/
def Call.isWrite : Call → Bool
  | Call.write_event _ _ _ => true
  | _ => false

/-- The writes to the virtual device among the calls of a trace, in order. -/
def deviceWrites (t : List Call) : List Call := t.filter Call.isWrite

/-- Whether a call is `unlink`. -/
def Call.isUnlink : Call → Bool
  | Call.unlink _ => true
  | _ => false

/-- Whether a call is `bind`. -/
def Call.isBind : Call → Bool
  | Call.bind _ _ => true
  | _ => false

/-- Whether a call is a `bind` that succeeded. -/
def Call.isBindOk : Call → Bool
  | Call.bind _ r => decide (r ≠ -1)
  | _ => false

/-- Whether a call is a `bind` that failed. -/
def Call.isBindFailed : Call → Bool
  | Call.bind _ r => decide (r = -1)
  | _ => false

/-- Whether a call is `socket`, `bind` or `connect`. -/
def Call.isSockCall : Call → Bool
  | Call.socket _ => true
  | Call.bind _ _ => true
  | Call.connect _ _ => true
  | _ => false

/-- Whether a call is `connect`. -/
def Call.isConnect : Call → Bool
  | Call.connect _ _ => true
  | _ => false

/-- Whether a call creates the virtual device (`libevdev_new` or
`libevdev_uinput_create_from_device`). -/
def Call.isCreate : Call → Bool
  | Call.libevdev_new _ => true
  | Call.uinput_create _ => true
  | _ => false

/-- Whether a call is a `libevdev_uinput_create_from_device` that succeeded. -/
def Call.isCreateOk : Call → Bool
  | Call.uinput_create rv => decide (rv = 0)
  | _ => false

/-- Whether a call is `listen`. -/
def Call.isListen : Call → Bool
  | Call.listen _ _ _ => true
  | _ => false

/-- Whether a call is a `listen` that succeeded. -/
def Call.isListenOk : Call → Bool
  | Call.listen _ _ r => decide (r ≠ -1)
  | _ => false

/-- Whether a call is a `fchmod` that succeeded. -/
def Call.isFchmodOk : Call → Bool
  | Call.fchmod _ _ r => decide (r ≠ -1)
  | _ => false

/-- Whether a call is the announcement `READY=1`. -/
def Call.isReady : Call → Bool
  | Call.sd_notify s => decide (s = "READY=1")
  | _ => false

/-- Whether a call is one of those `RunDaemon` makes only before its loop:
`socket`, `bind`, `connect`, `fchmod`, the two device-creating calls, `listen`,
a `sigaction` that installs `SignalHandler`, and `sd_notify`. -/
def Call.isSetup : Call → Bool
  | Call.socket _ => true
  | Call.bind _ _ => true
  | Call.connect _ _ => true
  | Call.fchmod _ _ _ => true
  | Call.libevdev_new _ => true
  | Call.uinput_create _ => true
  | Call.listen _ _ _ => true
  | Call.sigaction _ h _ => decide (h = "SignalHandler")
  | Call.sd_notify _ => true
  | _ => false

/-- Whether a call is one of those `RunDaemon` makes before a `bind` has
succeeded: a message, `socket`, a failed `bind`, `connect`, `unlink`. -/
def Call.isEarly : Call → Bool
  | Call.msg _ => true
  | Call.socket _ => true
  | Call.bind _ r => decide (r = -1)
  | Call.connect _ _ => true
  | Call.unlink _ => true
  | _ => false

/-- Whether a call is a failed `socket`, `fchmod`, `libevdev_new`,
`libevdev_uinput_create_from_device`, `listen`, or a failed `sigaction` that
installs `SignalHandler` (the re-arming of the signals in `AllowSignals`). -/
def Call.isFatal : Call → Bool
  | Call.socket r => decide (r = -1)
  | Call.fchmod _ _ r => decide (r = -1)
  | Call.libevdev_new ok => !ok
  | Call.uinput_create rv => decide (rv ≠ 0)
  | Call.listen _ _ r => decide (r = -1)
  | Call.sigaction _ h r => decide (h = "SignalHandler") && decide (r = -1)
  | _ => false

/-- Every call of `t` that satisfies `q` comes after some call that
satisfies `p`: scanning `t`, no `q` is met before the first `p`. -/
def precededBy (p q : Call → Bool) : List Call → Bool
  | [] => true
  | c :: cs => if p c then true else !q c && precededBy p q cs

/-- The results for which the code reaches `bind` a second time: the path
fits, the first `socket` succeeds, the first `bind` fails with `EADDRINUSE`,
the probing `connect` fails, the `unlink` of the stale path succeeds and the
second `socket` succeeds. -/
def secondBindReached (opts : Opts_t) (w : World) : Prop :=
  opts.socket.utf8ByteSize < SUN_PATH_SIZE ∧ w.socket 0 ≠ -1 ∧ w.bind 0 = -1 ∧
  w.bindErrno 0 = EADDRINUSE ∧ w.connect 0 = -1 ∧ w.unlinkStale 0 ≠ -1 ∧ w.socket 1 ≠ -1

instance instDecidableSecondBindReached (opts : Opts_t) (w : World) :
    Decidable (secondBindReached opts w) := by
  unfold secondBindReached
  infer_instance

/-- Equality of two strings ignoring letter case, as the specification words
it: the strings agree once every letter is put in lower case. -/
def eqIgnoreCase (a b : String) : Bool :=
  decide (a.toList.map Char.toLower = b.toList.map Char.toLower)

/-- The state in which `ParseOptions` enters its option loop when `main`
calls it: default options, `*ret = 0`. -/
def initialState (errno0 : Nat) : ParseState :=
  { opts := defaultOpts, ret := 0, _exit := false, errno := errno0 }

/-! ## Concrete inputs -/

/-- Options of a daemon started with `-d -s /tmp/t.sock`. -/
def optsT : Opts_t :=
  { socket := "/tmp/t.sock", name := DEFAULT_DEVNAME, event := _UNSET,
    vendor := DEFAULT_VENDOR, product := DEFAULT_PRODUCT, daemon := true, verbose := false }

/-- A client that connects and sends the byte `b`. -/
def sendByte (b : Nat) : Iter :=
  { accept := 5, acceptErrno := 0, setsockopt := 0, setsockoptErrno := 0,
    recv := 1, recvErrno := 0, byte := b, signal := false }

/-- A client that connects and sends nothing before the timeout. -/
def silentClient : Iter :=
  { accept := 5, acceptErrno := 0, setsockopt := 0, setsockoptErrno := 0,
    recv := -1, recvErrno := ETIMEDOUT, byte := 0, signal := false }

/-- An `accept` interrupted by a termination signal. -/
def interrupted : Iter :=
  { accept := -1, acceptErrno := EINTR, setsockopt := 0, setsockoptErrno := 0,
    recv := 0, recvErrno := 0, byte := 0, signal := true }

/-- A world in which every call succeeds at once: sockets get the descriptors
3, 4, ..., one client sends `DOCK`, then a signal ends the loop. -/
def worldOk : World :=
  { signedChar := true,
    socket := fun n => 3 + (n : Int), bind := fun _ => 0, bindErrno := fun _ => 0,
    connect := fun _ => -1, unlinkStale := fun _ => 0,
    fchmod := 0, libevdev_new := true, uinput_create := 0, listen := 0,
    allowSigaction := fun _ => 0, pending := false,
    iters := [sendByte 0, interrupted], ignoreSigaction := fun _ => 0 }

/-- A second daemon: the path is bound by a live daemon, `bind` fails with
`EADDRINUSE` and the probing `connect` succeeds. -/
def worldLivePeer : World :=
  { worldOk with bind := fun _ => -1, bindErrno := fun _ => EADDRINUSE, connect := fun _ => 0 }

/-- The first `bind` fails with `EACCES`. -/
def worldBindDenied : World :=
  { worldOk with bind := fun _ => -1, bindErrno := fun _ => EACCES }

/-- A stale socket file: the first `bind` fails with `EADDRINUSE`, nobody
answers the `connect`, and after the `unlink` the second `bind` succeeds. -/
def worldStale : World :=
  { worldOk with
    bind := fun n => if n = 0 then -1 else 0,
    bindErrno := fun n => if n = 0 then EADDRINUSE else 0 }

/-- A stale socket file, and the second `socket` call fails. -/
def worldStaleNoSocket : World :=
  { worldStale with socket := fun n => if n = 0 then 3 else -1 }

/-- A stale socket file, and the second `bind` fails with `EADDRINUSE` too
(another daemon bound the path in between). -/
def worldStaleBindFails : World :=
  { worldOk with bind := fun _ => -1, bindErrno := fun _ => EADDRINUSE }

/-- Every call up to `listen` succeeds and `listen` fails. -/
def worldListenFails : World :=
  { worldOk with listen := -1 }

/-- The command line `vdockd -v unDock`. -/
def cmdUndock : Cmdline :=
  { getopt := [('v', none)], rest := fun _ => ["unDock"] }

/-- The command line `vdockd -d -e 12z`. -/
def cmdVendor12z : Cmdline :=
  { getopt := [('d', none), ('e', some "12z")], rest := fun _ => [] }

/-! ## Lemmas on the model -/

@[simp]
theorem pre_trace (evs : List Call) (r : Result) : (pre evs r).trace = evs ++ r.trace := rfl

@[simp]
theorem pre_ret (evs : List Call) (r : Result) : (pre evs r).ret = r.ret := rfl

theorem pre_pre (a b : List Call) (r : Result) : pre a (pre b r) = pre (a ++ b) r := by
  simp [pre]

@[simp]
theorem cleanup_ret (opts : Opts_t) (u d : Bool) (fd : Int) (us : Bool) (ret : Int) :
    (cleanup opts u d fd us ret).ret = some ret := rfl

theorem deviceWrites_append (a b : List Call) :
    deviceWrites (a ++ b) = deviceWrites a ++ deviceWrites b := by
  simp [deviceWrites]

theorem deviceWrites_closeClient (client : Int) : deviceWrites (closeClient client) = [] := by
  unfold closeClient deviceWrites
  split <;> simp [Call.isWrite]

theorem charToEvent_small (sc : Bool) (b : Nat) (h : b < 128) : charToEvent sc b = (b : Int) := by
  unfold charToEvent
  have : ¬ 128 ≤ b := by omega
  simp [this]

/-- The code from `_create_socket` on the retried pass, without recursion. -/
theorem createSocket_retry (opts : Opts_t) (w : World) (n : Nat) :
    createSocket opts w n true =
      if w.socket n = -1 then
        pre [Call.socket (w.socket n), Call.msg "socket()"]
          (cleanup opts false false (w.socket n) true 1)
      else if w.bind n = -1 then
        pre [Call.socket (w.socket n), Call.bind (w.socket n) (w.bind n), Call.msg "bind()"]
          (cleanup opts false false (w.socket n) true 1)
      else
        pre [Call.socket (w.socket n), Call.bind (w.socket n) (w.bind n)]
          (afterBind opts w (w.socket n) true) := by
  rw [createSocket]
  simp

/-- The code from `_create_socket` on the first pass. -/
theorem createSocket_first (opts : Opts_t) (w : World) (n : Nat) :
    createSocket opts w n false =
      if w.socket n = -1 then
        pre [Call.socket (w.socket n), Call.msg "socket()"]
          (cleanup opts false false (w.socket n) true 1)
      else if w.bind n = -1 then
        if w.bindErrno n ≠ EADDRINUSE then
          pre [Call.socket (w.socket n), Call.bind (w.socket n) (w.bind n), Call.msg "bind()"]
            (cleanup opts false false (w.socket n) true 1)
        else if w.connect n ≠ -1 then
          pre [Call.socket (w.socket n), Call.bind (w.socket n) (w.bind n),
               Call.connect (w.socket n) (w.connect n),
               Call.msg "Another instance is running on socket"]
            (cleanup opts false false (w.socket n) false 1)
        else if w.unlinkStale n = -1 then
          pre [Call.socket (w.socket n), Call.bind (w.socket n) (w.bind n),
               Call.connect (w.socket n) (w.connect n),
               Call.unlink opts.socket, Call.msg "unlink()"]
            (cleanup opts false false (w.socket n) true 1)
        else
          pre [Call.socket (w.socket n), Call.bind (w.socket n) (w.bind n),
               Call.connect (w.socket n) (w.connect n), Call.unlink opts.socket]
            (createSocket opts w (n + 1) true)
      else
        pre [Call.socket (w.socket n), Call.bind (w.socket n) (w.bind n)]
          (afterBind opts w (w.socket n) true) := by
  rw [createSocket]
  simp

theorem any_false_of_forall {p : Call → Bool} {l : List Call} (h : ∀ c ∈ l, p c = false) :
    l.any p = false := by
  rw [List.any_eq_false]
  intro c hc
  simp [h c hc]

theorem countP_zero_of_forall {p : Call → Bool} {l : List Call} (h : ∀ c ∈ l, p c = false) :
    l.countP p = 0 := by
  rw [List.countP_eq_zero]
  intro c hc
  simp [h c hc]

theorem sigactionLoop_calls (handler : String) (res : Nat → Int) (sigs : List Nat) (i : Nat) :
    ∀ c ∈ (sigactionLoop handler res i sigs).1,
      c = Call.msg "sigaction()" ∨ ∃ s r, c = Call.sigaction s handler r := by
  induction sigs generalizing i with
  | nil => simp [sigactionLoop]
  | cons s rest ih =>
    intro c hc
    unfold sigactionLoop at hc
    split at hc
    · simp at hc
      rcases hc with h | h
      · exact Or.inr ⟨_, _, h⟩
      · exact Or.inl h
    · simp at hc
      rcases hc with h | h
      · exact Or.inr ⟨_, _, h⟩
      · exact ih _ c h

/-- A `sigactionLoop` that returns `false` made no `sigaction` that failed. -/
theorem sigactionLoop_ok (handler : String) (res : Nat → Int) (sigs : List Nat) (i : Nat)
    (h : (sigactionLoop handler res i sigs).2 = false) :
    ∀ c ∈ (sigactionLoop handler res i sigs).1, ∃ s r, c = Call.sigaction s handler r ∧ r ≠ -1 := by
  induction sigs generalizing i with
  | nil => simp [sigactionLoop]
  | cons s rest ih =>
    intro c hc
    unfold sigactionLoop at hc h
    split at hc
    · rename_i hres
      simp [hres] at h
    · rename_i hres
      simp [hres] at h
      simp at hc
      rcases hc with hc | hc
      · exact ⟨_, _, hc, hres⟩
      · exact ih _ h c hc

/-- A `sigactionLoop` that returns `true` made a `sigaction` that failed. -/
theorem sigactionLoop_failed (handler : String) (res : Nat → Int) (sigs : List Nat) (i : Nat)
    (h : (sigactionLoop handler res i sigs).2 = true) :
    ∃ s, Call.sigaction s handler (-1) ∈ (sigactionLoop handler res i sigs).1 := by
  induction sigs generalizing i with
  | nil => simp [sigactionLoop] at h
  | cons s rest ih =>
    unfold sigactionLoop at h ⊢
    split
    · rename_i hres
      exact ⟨s, by simp [hres]⟩
    · rename_i hres
      simp [hres] at h
      obtain ⟨s1, hs1⟩ := ih _ h
      exact ⟨s1, by simp [hs1]⟩

theorem IgnoreSignals_setup (res : Nat → Int) :
    ∀ c ∈ (IgnoreSignals res).1, c.isSetup = false := by
  intro c hc
  rcases sigactionLoop_calls _ res _ _ c hc with h | ⟨s, r, h⟩ <;> simp [h, Call.isSetup]

theorem cleanup_setup (opts : Opts_t) (u d : Bool) (fd : Int) (us : Bool) (ret : Int) :
    ∀ c ∈ (cleanup opts u d fd us ret).trace, c.isSetup = false := by
  intro c hc
  simp only [cleanup, List.mem_append] at hc
  rcases hc with (hc | hc) | hc
  · split at hc
    · simp only [List.mem_append] at hc
      rcases hc with hc | hc
      · split at hc <;> simp at hc
        simp [hc, Call.isSetup]
      · simp at hc
        simp [hc, Call.isSetup]
    · simp at hc
  · split at hc <;> simp at hc
    simp [hc, Call.isSetup]
  · split at hc
    · simp only [List.mem_cons] at hc
      rcases hc with hc | hc
      · simp [hc, Call.isSetup]
      · split at hc <;> simp at hc
        simp [hc, Call.isSetup]
    · simp at hc

theorem closeClient_setup (client : Int) : ∀ c ∈ closeClient client, c.isSetup = false := by
  intro c hc
  unfold closeClient at hc
  split at hc <;> simp at hc
  rcases hc with hc | hc <;> simp [hc, Call.isSetup]

theorem applyEvent_setup (opts : Opts_t) (sc : Bool) (data : Bool) (b : Nat) :
    ∀ c ∈ applyEvent opts sc data b, c.isSetup = false := by
  intro c hc
  unfold applyEvent at hc
  split at hc
  · simp only at hc
    split at hc
    · split at hc <;> simp at hc
      simp [hc, Call.isSetup]
    · simp only [List.mem_append] at hc
      rcases hc with (hc | hc) | hc
      · split at hc <;> simp at hc
        simp [hc, Call.isSetup]
      · split at hc
        · simp at hc
          simp [hc, Call.isSetup]
        · split at hc <;> simp at hc
          simp [hc, Call.isSetup]
      · simp at hc
        simp [hc, Call.isSetup]
  · simp at hc

theorem LoopBody_setup (opts : Opts_t) (sc : Bool) (fd : Int) (it : Iter) :
    ∀ c ∈ LoopBody opts sc fd it, c.isSetup = false := by
  intro c hc
  unfold LoopBody at hc
  simp only at hc
  split at hc
  · simp only [List.mem_append] at hc
    rcases hc with ((hc | hc) | hc) | hc
    · simp at hc
      simp [hc, Call.isSetup]
    · split at hc <;> simp at hc
      simp [hc, Call.isSetup]
    · exact closeClient_setup _ c hc
    · exact applyEvent_setup _ _ _ _ c hc
  · split at hc
    · simp only [List.mem_append] at hc
      rcases hc with ((hc | hc) | hc) | hc
      · simp at hc
        rcases hc with hc | hc <;> simp [hc, Call.isSetup]
      · split at hc <;> simp at hc
        simp [hc, Call.isSetup]
      · exact closeClient_setup _ c hc
      · exact applyEvent_setup _ _ _ _ c hc
    · split at hc
      · simp only [List.mem_append] at hc
        rcases hc with ((hc | hc) | hc) | hc
        · simp at hc
          rcases hc with hc | hc | hc <;> simp [hc, Call.isSetup]
        · split at hc <;> simp at hc
          simp [hc, Call.isSetup]
        · exact closeClient_setup _ c hc
        · exact applyEvent_setup _ _ _ _ c hc
      · simp only [List.mem_append] at hc
        rcases hc with (hc | hc) | hc
        · simp at hc
          rcases hc with hc | hc | hc <;> simp [hc, Call.isSetup]
        · exact closeClient_setup _ c hc
        · exact applyEvent_setup _ _ _ _ c hc

theorem afterLoop_setup (opts : Opts_t) (w : World) (fd : Int) (us : Bool) :
    ∀ c ∈ (afterLoop opts w fd us).trace, c.isSetup = false := by
  intro c hc
  unfold afterLoop at hc
  simp only at hc
  split at hc <;>
  · simp only [pre_trace, List.mem_append] at hc
    rcases hc with hc | hc
    · exact IgnoreSignals_setup _ c hc
    · exact cleanup_setup _ _ _ _ _ _ c hc

theorem acceptLoop_setup (opts : Opts_t) (w : World) (fd : Int) (us : Bool) (ret : Int)
    (iters : List Iter) (caught : Bool) :
    ∀ c ∈ (acceptLoop opts w fd us caught ret iters).trace, c.isSetup = false := by
  induction iters generalizing caught with
  | nil =>
    cases caught
    · simp [acceptLoop]
    · simpa [acceptLoop] using afterLoop_setup opts w fd us
  | cons it rest ih =>
    cases caught
    · intro c hc
      simp only [acceptLoop, pre_trace, List.mem_append] at hc
      rcases hc with hc | hc
      · exact LoopBody_setup _ _ _ _ c hc
      · exact ih _ c hc
    · simpa [acceptLoop] using afterLoop_setup opts w fd us

/-! ## The accept loop -/

/-- C1: a pass through the loop body in which `recv` returned one byte (so
`accept` and `setsockopt` had succeeded) and the byte is 0 or 1 writes to the
device exactly twice: first `(EV_SW, SW_DOCK, v)` with `v = 1` for byte 0
(DOCK) and `v = 0` for byte 1 (UNDOCK), then `(EV_SYN, SYN_REPORT, 0)`. -/
theorem valid_event_two_writes (opts : Opts_t) (signedChar : Bool) (fd : Int) (it : Iter)
    (hacc : it.accept ≠ -1) (hset : it.setsockopt ≠ -1) (hrecv : it.recv = 1)
    (hbyte : it.byte = 0 ∨ it.byte = 1) :
    deviceWrites (LoopBody opts signedChar fd it) =
      [Call.write_event EV_SW SW_DOCK (if it.byte = 0 then 1 else 0),
       Call.write_event EV_SYN SYN_REPORT 0] := by
  have h0 : charToEvent signedChar 0 = 0 := charToEvent_small _ _ (by omega)
  have h1 : charToEvent signedChar 1 = 1 := charToEvent_small _ _ (by omega)
  unfold LoopBody
  simp only [hacc, hset, hrecv, if_false, ne_eq, not_true_eq_false]
  rw [deviceWrites_append, deviceWrites_append, deviceWrites_closeClient]
  unfold applyEvent
  rcases hbyte with h | h <;> cases hv : opts.verbose <;>
    simp [h0, h1, h, deviceWrites, Call.isWrite, _NUM_EVTS, DOCK, UNDOCK]

/-- A client that sends the byte 1: the hypotheses of `valid_event_two_writes` hold. -/
theorem valid_event_two_writes_witness :
    deviceWrites (LoopBody optsT true 3 (sendByte 1)) =
      [Call.write_event EV_SW SW_DOCK (if (sendByte 1).byte = 0 then 1 else 0),
       Call.write_event EV_SYN SYN_REPORT 0] :=
  valid_event_two_writes optsT true 3 (sendByte 1) (by decide) (by decide) rfl (Or.inr rfl)

theorem charToEvent_invalid (sc : Bool) (b : Nat) (hb : b < 256) (h0 : b ≠ 0) (h1 : b ≠ 1) :
    charToEvent sc b ≥ _NUM_EVTS ∨ charToEvent sc b < 0 := by
  unfold charToEvent
  by_cases h : 128 ≤ b <;> cases sc <;> simp [h, _NUM_EVTS] <;> omega

theorem deviceWrites_applyEvent_false (opts : Opts_t) (sc : Bool) (b : Nat) :
    deviceWrites (applyEvent opts sc false b) = [] := by
  simp [applyEvent, deviceWrites]

/-- C2: a pass through the loop body in which `setsockopt` failed, or `recv`
did not return 1, or the byte received is none of 0 and 1 (whatever the
signedness of `char`), makes no write to the device, and the loop goes on from
its condition with the same value of `ret`: the run from this pass on is the
calls of the pass followed by the run from the next test of `CaughtSignal`. -/
theorem no_valid_event_no_write (opts : Opts_t) (w : World) (fd : Int) (unlink_socket : Bool)
    (ret : Int) (it : Iter) (rest : List Iter) (hb : it.byte < 256)
    (hno : it.setsockopt = -1 ∨ it.recv ≠ 1 ∨ (it.byte ≠ 0 ∧ it.byte ≠ 1)) :
    deviceWrites (LoopBody opts w.signedChar fd it) = [] ∧
    acceptLoop opts w fd unlink_socket false ret (it :: rest) =
      pre (LoopBody opts w.signedChar fd it)
        (acceptLoop opts w fd unlink_socket it.signal ret rest) := by
  refine ⟨?_, rfl⟩
  unfold LoopBody
  by_cases hacc : it.accept = -1
  · simp only [hacc, if_true, deviceWrites_append, deviceWrites_closeClient,
      deviceWrites_applyEvent_false]
    split <;> simp [deviceWrites, Call.isWrite]
  by_cases hset : it.setsockopt = -1
  · simp only [hacc, hset, if_true, if_false, deviceWrites_append, deviceWrites_closeClient,
      deviceWrites_applyEvent_false]
    split <;> simp [deviceWrites, Call.isWrite]
  by_cases hrecv : it.recv = 1
  · have hbyte : it.byte ≠ 0 ∧ it.byte ≠ 1 := by
      rcases hno with h | h | h
      · exact absurd h hset
      · exact absurd hrecv h
      · exact h
    have hinv := charToEvent_invalid w.signedChar it.byte hb hbyte.1 hbyte.2
    simp only [hacc, hset, hrecv, if_false, ne_eq, not_true_eq_false, deviceWrites_append,
      deviceWrites_closeClient]
    unfold applyEvent
    simp only [if_true, hinv]
    split <;> simp [deviceWrites, Call.isWrite]
  · simp only [hacc, hset, hrecv, if_true, if_false, ne_eq, not_false_eq_true,
      deviceWrites_append, deviceWrites_closeClient, deviceWrites_applyEvent_false]
    split <;> simp [deviceWrites, Call.isWrite]

/-- A client that sends the byte 200: the hypotheses of `no_valid_event_no_write` hold. -/
theorem no_valid_event_no_write_witness :
    deviceWrites (LoopBody optsT worldOk.signedChar 3 (sendByte 200)) = [] ∧
    acceptLoop optsT worldOk 3 true false 1 (sendByte 200 :: [interrupted]) =
      pre (LoopBody optsT worldOk.signedChar 3 (sendByte 200))
        (acceptLoop optsT worldOk 3 true (sendByte 200).signal 1 [interrupted]) :=
  no_valid_event_no_write optsT worldOk 3 true 1 (sendByte 200) [interrupted]
    (by decide) (Or.inr (Or.inr ⟨by decide, by decide⟩))

/-! ## Socket set-up and the singleton guarantee -/

/-- C3: when the first `bind` (reached because the path fits and `socket`
succeeded) fails with `EADDRINUSE` and the probing `connect` succeeds,
`RunDaemon` returns 1 after exactly the calls `socket`,
`bind`, `connect`, the message, and `close`: it calls `unlink` nowhere, creates
no device, does not `listen` and does not announce `READY=1`. -/
theorem singleton_conflict (opts : Opts_t) (w : World)
    (hlen : opts.socket.utf8ByteSize < SUN_PATH_SIZE) (hsock : w.socket 0 ≠ -1)
    (hbind : w.bind 0 = -1) (herrno : w.bindErrno 0 = EADDRINUSE)
    (hconn : w.connect 0 ≠ -1) :
    (RunDaemon opts w).ret = some 1 ∧
    (RunDaemon opts w).trace =
      [Call.socket (w.socket 0), Call.bind (w.socket 0) (-1),
       Call.connect (w.socket 0) (w.connect 0),
       Call.msg "Another instance is running on socket", Call.close (w.socket 0)] ∧
    (RunDaemon opts w).trace.any Call.isUnlink = false ∧
    (RunDaemon opts w).trace.any Call.isCreate = false ∧
    (RunDaemon opts w).trace.any Call.isListen = false ∧
    (RunDaemon opts w).trace.any Call.isReady = false := by
  have hrun : RunDaemon opts w =
      pre [Call.socket (w.socket 0), Call.bind (w.socket 0) (-1),
           Call.connect (w.socket 0) (w.connect 0),
           Call.msg "Another instance is running on socket"]
        (cleanup opts false false (w.socket 0) false 1) := by
    unfold RunDaemon
    rw [if_neg (by omega)]
    unfold createSocket
    simp [hsock, hbind, herrno, hconn]
  rw [hrun]
  simp [cleanup, hsock, Call.isUnlink, Call.isCreate, Call.isListen, Call.isReady]

/-- A second daemon next to a live one: the hypotheses of `singleton_conflict` hold. -/
theorem singleton_conflict_witness :
    (RunDaemon optsT worldLivePeer).ret = some 1 ∧
    (RunDaemon optsT worldLivePeer).trace =
      [Call.socket (worldLivePeer.socket 0), Call.bind (worldLivePeer.socket 0) (-1),
       Call.connect (worldLivePeer.socket 0) (worldLivePeer.connect 0),
       Call.msg "Another instance is running on socket",
       Call.close (worldLivePeer.socket 0)] ∧
    (RunDaemon optsT worldLivePeer).trace.any Call.isUnlink = false ∧
    (RunDaemon optsT worldLivePeer).trace.any Call.isCreate = false ∧
    (RunDaemon optsT worldLivePeer).trace.any Call.isListen = false ∧
    (RunDaemon optsT worldLivePeer).trace.any Call.isReady = false :=
  singleton_conflict optsT worldLivePeer (by decide) (by decide) rfl rfl (by decide)

/-! ## Readiness -/

theorem acceptLoop_any (p : Call → Bool) (hp : ∀ c, p c = true → c.isSetup = true)
    (opts : Opts_t) (w : World) (fd : Int) (us : Bool) (ret : Int)
    (iters : List Iter) (caught : Bool) :
    (acceptLoop opts w fd us caught ret iters).trace.any p = false := by
  apply any_false_of_forall
  intro c hc
  have h := acceptLoop_setup opts w fd us ret iters caught c hc
  cases hpc : p c
  · rfl
  · rw [hp c hpc] at h
    exact absurd h (by decide)

theorem cleanup_any (p : Call → Bool) (hp : ∀ c, p c = true → c.isSetup = true)
    (opts : Opts_t) (u d : Bool) (fd : Int) (us : Bool) (ret : Int) :
    (cleanup opts u d fd us ret).trace.any p = false := by
  apply any_false_of_forall
  intro c hc
  have h := cleanup_setup opts u d fd us ret c hc
  cases hpc : p c
  · rfl
  · rw [hp c hpc] at h
    exact absurd h (by decide)

theorem isReady_setup : ∀ c, Call.isReady c = true → c.isSetup = true := by
  intro c h
  cases c <;> simp_all [Call.isReady, Call.isSetup]

theorem isFatal_setup : ∀ c, Call.isFatal c = true → c.isSetup = true := by
  intro c h
  cases c <;> simp_all [Call.isFatal, Call.isSetup]

theorem AllowSignals_ready (res : Nat → Int) : (AllowSignals res).1.any Call.isReady = false := by
  apply any_false_of_forall
  intro c hc
  rcases sigactionLoop_calls _ res _ _ c hc with h | ⟨s, r, h⟩ <;> simp [h, Call.isReady]

theorem AllowSignals_fatal (res : Nat → Int) (h : (AllowSignals res).2 = false) :
    (AllowSignals res).1.any Call.isFatal = false := by
  apply any_false_of_forall
  intro c hc
  obtain ⟨s, r, hcr, hr⟩ := sigactionLoop_ok _ res _ _ h c hc
  simp [hcr, Call.isFatal, hr]

/-- The run from `fchmod` on either announces `READY=1` once, after a
successful device creation and a successful `listen` and with every call
before it successful, or returns 1 without announcing it. -/
theorem afterBind_ready (opts : Opts_t) (w : World) (fd : Int) (us : Bool) :
    ((afterBind opts w fd us).trace.countP Call.isReady = 1 ∧
      precededBy Call.isCreateOk Call.isReady (afterBind opts w fd us).trace = true ∧
      precededBy Call.isListenOk Call.isReady (afterBind opts w fd us).trace = true ∧
      (afterBind opts w fd us).trace.any Call.isFatal = false) ∨
    ((afterBind opts w fd us).trace.any Call.isReady = false ∧
      (afterBind opts w fd us).ret = some 1) := by
  have hl := acceptLoop_any Call.isReady isReady_setup opts w fd us 1 w.iters w.pending
  have hlf := acceptLoop_any Call.isFatal isFatal_setup opts w fd us 1 w.iters w.pending
  have hc := fun u d r => cleanup_any Call.isReady isReady_setup opts u d fd us r
  have ha := AllowSignals_ready w.allowSigaction
  unfold afterBind
  by_cases h1 : w.fchmod = -1
  · right
    simp [h1, hc, Call.isReady]
  by_cases h2 : w.libevdev_new = false
  · right
    simp [h1, h2, hc, Call.isReady]
  by_cases h3 : w.uinput_create = 0
  swap
  · right
    simp [h1, h2, h3, hc, Call.isReady]
  by_cases h4 : w.listen = -1
  · right
    cases hv : opts.verbose <;> simp [h1, h2, h3, h4, hc, Call.isReady]
  cases h5 : (AllowSignals w.allowSigaction).2
  · left
    have hf := AllowSignals_fatal w.allowSigaction h5
    have h2t : w.libevdev_new = true := by simpa using h2
    have hcnt : List.countP Call.isReady (AllowSignals w.allowSigaction).1 = 0 :=
      countP_zero_of_forall (fun c hc => by
        have := ha
        rw [List.any_eq_false] at this
        simpa using this c hc)
    have hcntl : List.countP Call.isReady
        (acceptLoop opts w fd us w.pending 1 w.iters).trace = 0 :=
      countP_zero_of_forall (fun c hc => by
        have := hl
        rw [List.any_eq_false] at this
        simpa using this c hc)
    cases hv : opts.verbose <;>
      simp [h1, h2t, h3, h4, h5, hl, hlf, ha, hf, hcnt, hcntl, Call.isReady, Call.isFatal,
        Call.isCreateOk, Call.isListenOk, precededBy, List.countP_cons, List.countP_append]
  · right
    cases hv : opts.verbose <;> simp [h1, h2, h3, h4, h5, hc, ha, Call.isReady]

/-- Every run of `RunDaemon` either reaches the `fchmod` after a successful
`bind`, the first one or the one retried after a stale path was removed, or
goes to `_return` with `ret = 1` before any `bind` has succeeded. -/
theorem RunDaemon_shape (opts : Opts_t) (w : World) :
    (∃ P fd b, RunDaemon opts w = pre P (afterBind opts w fd true) ∧ b ≠ -1 ∧ fd ≠ -1 ∧
      (P = [Call.socket fd, Call.bind fd b] ∨
       ∃ f0 c, f0 ≠ -1 ∧ P = [Call.socket f0, Call.bind f0 (-1), Call.connect f0 c,
                    Call.unlink opts.socket, Call.socket fd, Call.bind fd b])) ∨
    (∃ Q fd us, RunDaemon opts w = pre Q (cleanup opts false false fd us 1) ∧
      ∀ c ∈ Q, c.isEarly = true) := by
  unfold RunDaemon
  by_cases hlen : opts.socket.utf8ByteSize ≥ SUN_PATH_SIZE
  · right
    exact ⟨_, _, _, by rw [if_pos hlen], by simp [Call.isEarly]⟩
  rw [if_neg hlen, createSocket_first]
  by_cases h1 : w.socket 0 = -1
  · right
    exact ⟨_, _, _, by rw [if_pos h1], by simp [Call.isEarly]⟩
  rw [if_neg h1]
  by_cases h2 : w.bind 0 = -1
  swap
  · left
    exact ⟨_, _, w.bind 0, by rw [if_neg h2], h2, h1, Or.inl rfl⟩
  rw [if_pos h2]
  by_cases h3 : w.bindErrno 0 ≠ EADDRINUSE
  · right
    exact ⟨_, _, _, by rw [if_pos h3], by simp [Call.isEarly, h2]⟩
  rw [if_neg h3]
  by_cases h4 : w.connect 0 ≠ -1
  · right
    exact ⟨_, _, _, by rw [if_pos h4], by simp [Call.isEarly, h2]⟩
  rw [if_neg h4]
  by_cases h5 : w.unlinkStale 0 = -1
  · right
    exact ⟨_, _, _, by rw [if_pos h5], by simp [Call.isEarly, h2]⟩
  rw [if_neg h5, createSocket_retry]
  by_cases h6 : w.socket (0 + 1) = -1
  · right
    refine ⟨[Call.socket (w.socket 0), Call.bind (w.socket 0) (w.bind 0),
      Call.connect (w.socket 0) (w.connect 0), Call.unlink opts.socket,
      Call.socket (w.socket (0 + 1)), Call.msg "socket()"], w.socket (0 + 1), true, ?_, ?_⟩
    · rw [if_pos h6]
      rfl
    · simp [Call.isEarly, h2]
  rw [if_neg h6]
  by_cases h7 : w.bind (0 + 1) = -1
  · right
    refine ⟨[Call.socket (w.socket 0), Call.bind (w.socket 0) (w.bind 0),
      Call.connect (w.socket 0) (w.connect 0), Call.unlink opts.socket,
      Call.socket (w.socket (0 + 1)), Call.bind (w.socket (0 + 1)) (w.bind (0 + 1)),
      Call.msg "bind()"], w.socket (0 + 1), true, ?_, ?_⟩
    · rw [if_pos h7]
      rfl
    · simp [Call.isEarly, h2, h7]
  · left
    refine ⟨[Call.socket (w.socket 0), Call.bind (w.socket 0) (-1),
      Call.connect (w.socket 0) (w.connect 0), Call.unlink opts.socket,
      Call.socket (w.socket (0 + 1)), Call.bind (w.socket (0 + 1)) (w.bind (0 + 1))],
      w.socket (0 + 1), w.bind (0 + 1), ?_, h7, h6, Or.inr ⟨_, _, h1, rfl⟩⟩
    rw [if_neg h7, h2]
    rfl

theorem precededBy_of_none (p q : Call → Bool) (l : List Call) (h : l.any q = false) :
    precededBy p q l = true := by
  induction l with
  | nil => rfl
  | cons c cs ih =>
    simp only [List.any_cons, Bool.or_eq_false_iff] at h
    unfold precededBy
    split
    · rfl
    · simp [h.1, ih h.2]

theorem precededBy_append_skip (p q : Call → Bool) (l r : List Call) (h : l.any q = false)
    (hr : precededBy p q r = true) : precededBy p q (l ++ r) = true := by
  induction l with
  | nil => simpa using hr
  | cons c cs ih =>
    simp only [List.any_cons, Bool.or_eq_false_iff] at h
    rw [List.cons_append]
    unfold precededBy
    split
    · rfl
    · simp [h.1, ih h.2]

theorem precededBy_append_found (p q : Call → Bool) (l r : List Call)
    (h : precededBy p q l = true) (hp : l.any p = true) : precededBy p q (l ++ r) = true := by
  induction l with
  | nil => simp at hp
  | cons c cs ih =>
    rw [List.cons_append]
    unfold precededBy at h ⊢
    by_cases hc : p c = true
    · simp [hc]
    · simp only [hc, if_false, Bool.and_eq_true, Bool.not_eq_true', Bool.false_eq_true] at h ⊢
      simp only [List.any_cons, Bool.or_eq_true, hc] at hp
      exact ⟨h.1, ih h.2 (hp.resolve_left (by simp))⟩

theorem early_any (p : Call → Bool) (hp : ∀ c, p c = true → c.isEarly = false)
    (Q : List Call) (hQ : ∀ c ∈ Q, c.isEarly = true) : Q.any p = false := by
  apply any_false_of_forall
  intro c hc
  cases hpc : p c
  · rfl
  · have := hp c hpc
    rw [hQ c hc] at this
    exact absurd this (by decide)

theorem isReady_early : ∀ c, Call.isReady c = true → c.isEarly = false := by
  intro c h
  cases c <;> simp_all [Call.isReady, Call.isEarly]

theorem isCreate_early : ∀ c, Call.isCreate c = true → c.isEarly = false := by
  intro c h
  cases c <;> simp_all [Call.isCreate, Call.isEarly]

theorem isListen_early : ∀ c, Call.isListen c = true → c.isEarly = false := by
  intro c h
  cases c <;> simp_all [Call.isListen, Call.isEarly]

theorem isBindOk_early : ∀ c, Call.isBindOk c = true → c.isEarly = false := by
  intro c h
  cases c <;> simp_all [Call.isBindOk, Call.isEarly]

theorem isCreate_setup : ∀ c, Call.isCreate c = true → c.isSetup = true := by
  intro c h
  cases c <;> simp_all [Call.isCreate, Call.isSetup]

theorem isListen_setup : ∀ c, Call.isListen c = true → c.isSetup = true := by
  intro c h
  cases c <;> simp_all [Call.isListen, Call.isSetup]

theorem isBindOk_setup : ∀ c, Call.isBindOk c = true → c.isSetup = true := by
  intro c h
  cases c <;> simp_all [Call.isBindOk, Call.isSetup]

theorem countP_zero_of_any {p : Call → Bool} {l : List Call} (h : l.any p = false) :
    l.countP p = 0 := by
  rw [List.any_eq_false] at h
  exact countP_zero_of_forall (fun c hc => by simpa using h c hc)

/-- How `READY=1` sits in a run: at most once, after a successful device
creation and a successful `listen`, and never in a run with a fatal failure
or without a successful `bind`. -/
theorem RunDaemon_ready (opts : Opts_t) (w : World) :
    (RunDaemon opts w).trace.countP Call.isReady ≤ 1 ∧
    precededBy Call.isCreateOk Call.isReady (RunDaemon opts w).trace = true ∧
    precededBy Call.isListenOk Call.isReady (RunDaemon opts w).trace = true ∧
    ((RunDaemon opts w).trace.any Call.isFatal = true →
      (RunDaemon opts w).ret = some 1 ∧ (RunDaemon opts w).trace.any Call.isReady = false) ∧
    ((RunDaemon opts w).trace.any Call.isBind = true →
      (RunDaemon opts w).trace.any Call.isBindOk = false →
      (RunDaemon opts w).ret = some 1 ∧ (RunDaemon opts w).trace.any Call.isReady = false) := by
  rcases RunDaemon_shape opts w with ⟨P, fd, b, hrun, hb, hfd, hP⟩ | ⟨Q, fd, us, hrun, hQ⟩
  · have hPr : P.any Call.isReady = false := by
      rcases hP with rfl | ⟨f0, c, _, rfl⟩ <;> simp [Call.isReady]
    have hPf : P.any Call.isFatal = false := by
      rcases hP with rfl | ⟨f0, c, hf0, rfl⟩
      · simp [Call.isFatal, hfd]
      · simp [Call.isFatal, hfd, hf0]
    have hPb : P.any Call.isBindOk = true := by
      rcases hP with rfl | ⟨f0, c, _, rfl⟩ <;> simp [Call.isBindOk, hb]
    rw [hrun]
    simp only [pre_trace, pre_ret, List.countP_append, List.any_append, countP_zero_of_any hPr,
      hPr, hPf, hPb, Bool.false_or, Bool.true_or, zero_add]
    rcases afterBind_ready opts w fd true with ⟨h1, h2, h3, h4⟩ | ⟨h1, h2⟩
    · refine ⟨by omega, precededBy_append_skip _ _ _ _ hPr h2,
        precededBy_append_skip _ _ _ _ hPr h3, ?_, ?_⟩
      · intro h
        rw [h4] at h
        exact absurd h (by decide)
      · intro _ h
        exact absurd h (by decide)
    · refine ⟨by rw [countP_zero_of_any h1]; omega,
        precededBy_append_skip _ _ _ _ hPr (precededBy_of_none _ _ _ h1),
        precededBy_append_skip _ _ _ _ hPr (precededBy_of_none _ _ _ h1), ?_, ?_⟩
      · intro _
        exact ⟨h2, h1⟩
      · intro _ _
        exact ⟨h2, h1⟩
  · have hQr : Q.any Call.isReady = false := early_any _ isReady_early Q hQ
    have hcr := cleanup_any Call.isReady isReady_setup opts false false fd us 1
    have hall : (Q ++ (cleanup opts false false fd us 1).trace).any Call.isReady = false := by
      simp [hQr, hcr]
    rw [hrun]
    simp only [pre_trace, pre_ret, cleanup_ret]
    refine ⟨by rw [countP_zero_of_any hall]; omega, precededBy_of_none _ _ _ hall,
      precededBy_of_none _ _ _ hall, fun _ => ⟨trivial, hall⟩, fun _ _ => ⟨trivial, hall⟩⟩

theorem isSockCall_setup : ∀ c, Call.isSockCall c = true → c.isSetup = true := by
  intro c h
  cases c <;> simp_all [Call.isSockCall, Call.isSetup]

theorem AllowSignals_any (p : Call → Bool) (hm : ∀ t, p (Call.msg t) = false)
    (hs : ∀ s h r, p (Call.sigaction s h r) = false) (res : Nat → Int) :
    (AllowSignals res).1.any p = false := by
  apply any_false_of_forall
  intro c hc
  rcases sigactionLoop_calls _ res _ _ c hc with h | ⟨s, r, h⟩
  · rw [h]
    exact hm _
  · rw [h]
    exact hs _ _ _

/-- The run from `fchmod` on calls neither `socket` nor `bind` nor `connect`. -/
theorem afterBind_sock (opts : Opts_t) (w : World) (fd : Int) (us : Bool) :
    (afterBind opts w fd us).trace.any Call.isSockCall = false := by
  have hl := acceptLoop_any Call.isSockCall isSockCall_setup opts w fd us 1 w.iters w.pending
  have hc := fun u d r => cleanup_any Call.isSockCall isSockCall_setup opts u d fd us r
  have ha := AllowSignals_any Call.isSockCall (fun _ => rfl) (fun _ _ _ => rfl) w.allowSigaction
  unfold afterBind
  by_cases h1 : w.fchmod = -1
  · simp [h1, hc, Call.isSockCall]
  by_cases h2 : w.libevdev_new = false
  · simp [h1, h2, hc, Call.isSockCall]
  by_cases h3 : w.uinput_create = 0
  swap
  · simp [h1, h2, h3, hc, Call.isSockCall]
  by_cases h4 : w.listen = -1
  · cases hv : opts.verbose <;> simp [h1, h2, h3, h4, hc, Call.isSockCall]
  cases h5 : (AllowSignals w.allowSigaction).2 <;> cases hv : opts.verbose <;>
    simp [h1, h2, h3, h4, h5, hc, hl, ha, Call.isSockCall]

theorem afterBind_any_sock (p : Call → Bool) (hp : ∀ c, p c = true → c.isSockCall = true)
    (opts : Opts_t) (w : World) (fd : Int) (us : Bool) :
    (afterBind opts w fd us).trace.any p = false := by
  have h := afterBind_sock opts w fd us
  rw [List.any_eq_false] at h
  apply any_false_of_forall
  intro c hc
  cases hpc : p c
  · rfl
  · exact absurd (hp c hpc) (h c hc)

theorem isBind_sock : ∀ c, Call.isBind c = true → c.isSockCall = true := by
  intro c h
  cases c <;> simp_all [Call.isBind, Call.isSockCall]

theorem isConnect_sock : ∀ c, Call.isConnect c = true → c.isSockCall = true := by
  intro c h
  cases c <;> simp_all [Call.isConnect, Call.isSockCall]

theorem isBind_setup : ∀ c, Call.isBind c = true → c.isSetup = true := by
  intro c h
  cases c <;> simp_all [Call.isBind, Call.isSetup]

theorem isConnect_setup : ∀ c, Call.isConnect c = true → c.isSetup = true := by
  intro c h
  cases c <;> simp_all [Call.isConnect, Call.isSetup]

/-- In the run from `fchmod` on, `listen` is called only after
`libevdev_uinput_create_from_device` has succeeded. -/
theorem afterBind_listen (opts : Opts_t) (w : World) (fd : Int) (us : Bool) :
    precededBy Call.isCreateOk Call.isListen (afterBind opts w fd us).trace = true := by
  have hl := acceptLoop_any Call.isListen isListen_setup opts w fd us 1 w.iters w.pending
  have hc := fun u d r => cleanup_any Call.isListen isListen_setup opts u d fd us r
  unfold afterBind
  by_cases h1 : w.fchmod = -1
  · exact precededBy_of_none _ _ _ (by simp [h1, hc, Call.isListen])
  by_cases h2 : w.libevdev_new = false
  · exact precededBy_of_none _ _ _ (by simp [h1, h2, hc, Call.isListen])
  by_cases h3 : w.uinput_create = 0
  swap
  · exact precededBy_of_none _ _ _ (by simp [h1, h2, h3, hc, Call.isListen])
  have h2t : w.libevdev_new = true := by simpa using h2
  by_cases h4 : w.listen = -1
  · cases hv : opts.verbose <;>
      simp [h1, h2t, h3, h4, precededBy, Call.isCreateOk, Call.isListen]
  cases h5 : (AllowSignals w.allowSigaction).2 <;> cases hv : opts.verbose <;>
    simp [h1, h2t, h3, h4, h5, precededBy, Call.isCreateOk, Call.isListen]

/-! ## Runs in the concrete worlds -/

/-- The run of `RunDaemon` in `worldOk`. -/
theorem run_worldOk :
    (RunDaemon optsT worldOk).trace =
      [Call.socket 3, Call.bind 3 0, Call.fchmod 3 0o600 0, Call.libevdev_new true, Call.uinput_create 0,
       Call.listen 3 16 0, Call.sigaction SIGINT "SignalHandler" 0,
       Call.sigaction SIGTERM "SignalHandler" 0, Call.sd_notify "READY=1",
       Call.accept 3 5, Call.setsockopt 5 0, Call.recv 5 1, Call.shutdown 5, Call.close 5,
       Call.write_event EV_SW SW_DOCK 1, Call.write_event EV_SYN SYN_REPORT 0,
       Call.accept 3 (-1), Call.sigaction SIGINT "SIG_IGN" 0,
       Call.sigaction SIGTERM "SIG_IGN" 0, Call.uinput_destroy, Call.libevdev_free,
       Call.close 3, Call.unlink "/tmp/t.sock"] ∧
    (RunDaemon optsT worldOk).ret = some 0 := by
  have hlen : ¬ (optsT.socket.utf8ByteSize ≥ SUN_PATH_SIZE) := by decide
  unfold RunDaemon
  rw [if_neg hlen, createSocket_first]
  simp [createSocket_retry, worldOk, worldOk, afterBind, AllowSignals, IgnoreSignals,
    sigactionLoop, SignalList, acceptLoop, afterLoop, LoopBody, closeClient, applyEvent,
    charToEvent, cleanup, sendByte, interrupted, optsT, pre, _NUM_EVTS]

/-- The run of `RunDaemon` in `worldStale`. -/
theorem run_worldStale :
    (RunDaemon optsT worldStale).trace =
      [Call.socket 3, Call.bind 3 (-1), Call.connect 3 (-1), Call.unlink "/tmp/t.sock",
       Call.socket 4, Call.bind 4 0, Call.fchmod 4 0o600 0, Call.libevdev_new true, Call.uinput_create 0,
       Call.listen 4 16 0, Call.sigaction SIGINT "SignalHandler" 0,
       Call.sigaction SIGTERM "SignalHandler" 0, Call.sd_notify "READY=1",
       Call.accept 4 5, Call.setsockopt 5 0, Call.recv 5 1, Call.shutdown 5, Call.close 5,
       Call.write_event EV_SW SW_DOCK 1, Call.write_event EV_SYN SYN_REPORT 0,
       Call.accept 4 (-1), Call.sigaction SIGINT "SIG_IGN" 0,
       Call.sigaction SIGTERM "SIG_IGN" 0, Call.uinput_destroy, Call.libevdev_free,
       Call.close 4, Call.unlink "/tmp/t.sock"] ∧
    (RunDaemon optsT worldStale).ret = some 0 := by
  have hlen : ¬ (optsT.socket.utf8ByteSize ≥ SUN_PATH_SIZE) := by decide
  unfold RunDaemon
  rw [if_neg hlen, createSocket_first]
  simp [createSocket_retry, worldStale, worldOk, afterBind, AllowSignals, IgnoreSignals,
    sigactionLoop, SignalList, acceptLoop, afterLoop, LoopBody, closeClient, applyEvent,
    charToEvent, cleanup, sendByte, interrupted, optsT, pre, _NUM_EVTS]

/-- The run of `RunDaemon` in `worldBindDenied`. -/
theorem run_worldBindDenied :
    (RunDaemon optsT worldBindDenied).trace =
      [Call.socket 3, Call.bind 3 (-1), Call.msg "bind()", Call.close 3,
       Call.unlink "/tmp/t.sock"] ∧
    (RunDaemon optsT worldBindDenied).ret = some 1 := by
  have hlen : ¬ (optsT.socket.utf8ByteSize ≥ SUN_PATH_SIZE) := by decide
  unfold RunDaemon
  rw [if_neg hlen, createSocket_first]
  simp [createSocket_retry, worldBindDenied, worldOk, afterBind, AllowSignals, IgnoreSignals,
    sigactionLoop, SignalList, acceptLoop, afterLoop, LoopBody, closeClient, applyEvent,
    charToEvent, cleanup, sendByte, interrupted, optsT, pre, _NUM_EVTS]

/-- The run of `RunDaemon` in `worldStaleNoSocket`. -/
theorem run_worldStaleNoSocket :
    (RunDaemon optsT worldStaleNoSocket).trace =
      [Call.socket 3, Call.bind 3 (-1), Call.connect 3 (-1), Call.unlink "/tmp/t.sock",
       Call.socket (-1), Call.msg "socket()"] ∧
    (RunDaemon optsT worldStaleNoSocket).ret = some 1 := by
  have hlen : ¬ (optsT.socket.utf8ByteSize ≥ SUN_PATH_SIZE) := by decide
  unfold RunDaemon
  rw [if_neg hlen, createSocket_first]
  simp [createSocket_retry, worldStaleNoSocket, worldStale, worldOk, afterBind, AllowSignals, IgnoreSignals,
    sigactionLoop, SignalList, acceptLoop, afterLoop, LoopBody, closeClient, applyEvent,
    charToEvent, cleanup, sendByte, interrupted, optsT, pre, _NUM_EVTS]

/-- The run of `RunDaemon` in `worldStaleBindFails`. -/
theorem run_worldStaleBindFails :
    (RunDaemon optsT worldStaleBindFails).trace =
      [Call.socket 3, Call.bind 3 (-1), Call.connect 3 (-1), Call.unlink "/tmp/t.sock",
       Call.socket 4, Call.bind 4 (-1), Call.msg "bind()", Call.close 4,
       Call.unlink "/tmp/t.sock"] ∧
    (RunDaemon optsT worldStaleBindFails).ret = some 1 := by
  have hlen : ¬ (optsT.socket.utf8ByteSize ≥ SUN_PATH_SIZE) := by decide
  unfold RunDaemon
  rw [if_neg hlen, createSocket_first]
  simp [createSocket_retry, worldStaleBindFails, worldOk, afterBind, AllowSignals, IgnoreSignals,
    sigactionLoop, SignalList, acceptLoop, afterLoop, LoopBody, closeClient, applyEvent,
    charToEvent, cleanup, sendByte, interrupted, optsT, pre, _NUM_EVTS]

/-- The run of `RunDaemon` in `worldListenFails`. -/
theorem run_worldListenFails :
    (RunDaemon optsT worldListenFails).trace =
      [Call.socket 3, Call.bind 3 0, Call.fchmod 3 0o600 0, Call.libevdev_new true,
       Call.uinput_create 0, Call.listen 3 16 (-1), Call.msg "listen()",
       Call.uinput_destroy, Call.libevdev_free, Call.close 3, Call.unlink "/tmp/t.sock"] ∧
    (RunDaemon optsT worldListenFails).ret = some 1 := by
  have hlen : ¬ (optsT.socket.utf8ByteSize ≥ SUN_PATH_SIZE) := by decide
  unfold RunDaemon
  rw [if_neg hlen, createSocket_first]
  simp [createSocket_retry, worldListenFails, worldOk, afterBind, AllowSignals, IgnoreSignals,
    sigactionLoop, SignalList, acceptLoop, afterLoop, LoopBody, closeClient, applyEvent,
    charToEvent, cleanup, sendByte, interrupted, optsT, pre, _NUM_EVTS]

/-! ## Readiness, stated -/

/-- C8, amended: `READY=1` is announced at most once, and only after
`libevdev_uinput_create_from_device` and `listen` have succeeded.  Whenever
`socket`, `fchmod`, `libevdev_new`, `libevdev_uinput_create_from_device`,
`listen` or the `sigaction` of `AllowSignals` fails, and whenever `bind` is
called and no `bind` of the run succeeds, `RunDaemon` returns 1 and `READY=1`
is never announced. -/
theorem ready_after_setup (opts : Opts_t) (w : World) :
    (RunDaemon opts w).trace.countP Call.isReady ≤ 1 ∧
    precededBy Call.isCreateOk Call.isReady (RunDaemon opts w).trace = true ∧
    precededBy Call.isListenOk Call.isReady (RunDaemon opts w).trace = true ∧
    ((RunDaemon opts w).trace.any Call.isFatal = true →
      (RunDaemon opts w).ret = some 1 ∧ (RunDaemon opts w).trace.any Call.isReady = false) ∧
    ((RunDaemon opts w).trace.any Call.isBind = true →
      (RunDaemon opts w).trace.any Call.isBindOk = false →
      (RunDaemon opts w).ret = some 1 ∧ (RunDaemon opts w).trace.any Call.isReady = false) :=
  RunDaemon_ready opts w

/-- A run in which `listen` fails: it returns 1 and never announces `READY=1`. -/
theorem ready_after_setup_witness :
    (RunDaemon optsT worldListenFails).ret = some 1 ∧
    (RunDaemon optsT worldListenFails).trace.any Call.isReady = false :=
  (ready_after_setup optsT worldListenFails).2.2.2.1
    (by rw [run_worldListenFails.1]; decide)

/-- C8 as stated fails: with a stale socket file the first `bind` fails, the
retried one succeeds, and the run announces `READY=1` and returns 0. -/
theorem ready_despite_failed_bind :
    ¬ ((RunDaemon optsT worldStale).trace.any Call.isBindFailed = true →
        (RunDaemon optsT worldStale).ret = some 1 ∧
        (RunDaemon optsT worldStale).trace.any Call.isReady = false) := by
  rw [run_worldStale.1, run_worldStale.2]
  decide

/-! ## Order of device creation and `listen` -/

/-- C9, amended: the device is created after the socket is bound and before
`listen` is called.  No call that creates the device (`libevdev_new`,
`libevdev_uinput_create_from_device`) occurs before a `bind` has succeeded;
`listen` is called only after `libevdev_uinput_create_from_device` has
succeeded; and `READY=1` is announced only after that creation. -/
theorem device_before_listen (opts : Opts_t) (w : World) :
    precededBy Call.isBindOk Call.isCreate (RunDaemon opts w).trace = true ∧
    precededBy Call.isCreateOk Call.isListen (RunDaemon opts w).trace = true ∧
    precededBy Call.isCreateOk Call.isReady (RunDaemon opts w).trace = true := by
  refine ⟨?_, ?_, (RunDaemon_ready opts w).2.1⟩
  · rcases RunDaemon_shape opts w with ⟨P, fd, b, hrun, hb, hfd, hP⟩ | ⟨Q, fd, us, hrun, hQ⟩
    · rw [hrun, pre_trace]
      apply precededBy_append_found
      · rcases hP with rfl | ⟨f0, c, _, rfl⟩ <;>
          simp [precededBy, Call.isBindOk, Call.isCreate, hb]
      · rcases hP with rfl | ⟨f0, c, _, rfl⟩ <;> simp [Call.isBindOk, hb]
    · rw [hrun, pre_trace]
      apply precededBy_of_none
      simp [early_any _ isCreate_early Q hQ, cleanup_any Call.isCreate isCreate_setup]
  · rcases RunDaemon_shape opts w with ⟨P, fd, b, hrun, hb, hfd, hP⟩ | ⟨Q, fd, us, hrun, hQ⟩
    · rw [hrun, pre_trace]
      apply precededBy_append_skip _ _ _ _ _ (afterBind_listen opts w fd true)
      rcases hP with rfl | ⟨f0, c, _, rfl⟩ <;> simp [Call.isListen]
    · rw [hrun, pre_trace]
      apply precededBy_of_none
      simp [early_any _ isListen_early Q hQ, cleanup_any Call.isListen isListen_setup]

/-- C9 as stated fails: in the run in which every call succeeds the device is
created before `listen` is called, so the creating calls are not preceded by a
successful `listen`. -/
theorem device_created_before_listen :
    precededBy Call.isListenOk Call.isCreate (RunDaemon optsT worldOk).trace = false := by
  rw [run_worldOk.1]
  decide

/-! ## Stale-path recovery -/

/-- C5, amended: `bind` is called at most twice.  It is called a second time
exactly when the first `bind` failed with `EADDRINUSE`, the probing `connect`
failed, the `unlink` of the stale path succeeded and the second `socket`
succeeded.  If the second `bind` then fails, `RunDaemon` returns 1 with no
further `connect` or `bind` and without creating the device; if it succeeds,
the run goes on with the same code, from `fchmod`, as after a first successful
`bind`. -/
theorem stale_retry_bounded (opts : Opts_t) (w : World) :
    (RunDaemon opts w).trace.countP Call.isBind ≤ 2 ∧
    ((RunDaemon opts w).trace.countP Call.isBind = 2 ↔ secondBindReached opts w) ∧
    (secondBindReached opts w → w.bind 1 = -1 →
      (RunDaemon opts w).ret = some 1 ∧
      (RunDaemon opts w).trace.countP Call.isBind = 2 ∧
      (RunDaemon opts w).trace.countP Call.isConnect = 1 ∧
      (RunDaemon opts w).trace.any Call.isCreate = false) ∧
    (secondBindReached opts w → w.bind 1 ≠ -1 →
      RunDaemon opts w =
        pre [Call.socket (w.socket 0), Call.bind (w.socket 0) (-1),
             Call.connect (w.socket 0) (-1), Call.unlink opts.socket,
             Call.socket (w.socket 1), Call.bind (w.socket 1) (w.bind 1)]
          (afterBind opts w (w.socket 1) true)) ∧
    (opts.socket.utf8ByteSize < SUN_PATH_SIZE → w.socket 0 ≠ -1 → w.bind 0 ≠ -1 →
      RunDaemon opts w =
        pre [Call.socket (w.socket 0), Call.bind (w.socket 0) (w.bind 0)]
          (afterBind opts w (w.socket 0) true)) := by
  have hcb := fun fd us => cleanup_any Call.isBind isBind_setup opts false false fd us 1
  have hcc := fun fd us => cleanup_any Call.isConnect isConnect_setup opts false false fd us 1
  have hck := fun fd us => cleanup_any Call.isCreate isCreate_setup opts false false fd us 1
  have hab := fun fd => countP_zero_of_any (afterBind_any_sock Call.isBind isBind_sock opts w fd true)
  have hcb0 := fun fd us => countP_zero_of_any (hcb fd us)
  have hcc0 := fun fd us => countP_zero_of_any (hcc fd us)
  unfold RunDaemon secondBindReached
  by_cases hlen : opts.socket.utf8ByteSize ≥ SUN_PATH_SIZE
  · have hlt : ¬ opts.socket.utf8ByteSize < SUN_PATH_SIZE := by omega
    rw [if_pos hlen]
    simp [hlt, hcb0, Call.isBind]
  have hlt : opts.socket.utf8ByteSize < SUN_PATH_SIZE := by omega
  rw [if_neg hlen, createSocket_first]
  by_cases h1 : w.socket 0 = -1
  · rw [if_pos h1]
    simp [h1, hcb0, Call.isBind, List.countP_cons]
  rw [if_neg h1]
  by_cases h2 : w.bind 0 = -1
  swap
  · rw [if_neg h2]
    simp [h2, hab, Call.isBind, List.countP_cons]
  rw [if_pos h2]
  by_cases h3 : w.bindErrno 0 ≠ EADDRINUSE
  · rw [if_pos h3]
    simp [h2, h3, hcb0, Call.isBind, List.countP_cons]
  rw [if_neg h3]
  by_cases h4 : w.connect 0 ≠ -1
  · rw [if_pos h4]
    simp [h2, h4, hcb0, Call.isBind, List.countP_cons]
  rw [if_neg h4]
  by_cases h5 : w.unlinkStale 0 = -1
  · rw [if_pos h5]
    simp [h2, h5, hcb0, Call.isBind, List.countP_cons]
  rw [if_neg h5, createSocket_retry]
  have h3e : w.bindErrno 0 = EADDRINUSE := by simpa using h3
  have h4e : w.connect 0 = -1 := by simpa using h4
  by_cases h6 : w.socket (0 + 1) = -1
  · rw [if_pos h6]
    have h6b : w.socket 1 = -1 := h6
    simp [h2, h6b, hcb0, Call.isBind, List.countP_cons]
  rw [if_neg h6]
  have h6b : w.socket 1 ≠ -1 := h6
  by_cases h7 : w.bind (0 + 1) = -1
  · rw [if_pos h7]
    have h7b : w.bind 1 = -1 := h7
    simp [hlt, h1, h2, h3e, h4e, h5, h6b, h7b, hcb0, hcc0, hck, Call.isBind, Call.isConnect,
      Call.isCreate, List.countP_cons]
  · rw [if_neg h7]
    have h7b : w.bind 1 ≠ -1 := h7
    simp [hlt, h1, h2, h3e, h4e, h5, h6b, h7b, hab, Call.isBind, List.countP_cons, pre_pre]

/-- A run in which the second `bind` is reached and fails. -/
theorem stale_retry_bounded_witness :
    (RunDaemon optsT worldStaleBindFails).ret = some 1 ∧
    (RunDaemon optsT worldStaleBindFails).trace.countP Call.isBind = 2 ∧
    (RunDaemon optsT worldStaleBindFails).trace.countP Call.isConnect = 1 ∧
    (RunDaemon optsT worldStaleBindFails).trace.any Call.isCreate = false :=
  (stale_retry_bounded optsT worldStaleBindFails).2.2.1 (by decide) rfl

/-- C5 as stated fails twice.  With a stale socket file whose removal
succeeds, `bind` is still not called again when the second `socket` fails; and
after a failed second `bind` the run does call `unlink` once more. -/
theorem second_bind_not_reached :
    (worldStaleNoSocket.bind 0 = -1 ∧ worldStaleNoSocket.bindErrno 0 = EADDRINUSE ∧
      worldStaleNoSocket.connect 0 = -1 ∧ worldStaleNoSocket.unlinkStale 0 ≠ -1 ∧
      (RunDaemon optsT worldStaleNoSocket).trace.countP Call.isBind = 1) ∧
    (RunDaemon optsT worldStaleBindFails).trace.drop 6 =
      [Call.msg "bind()", Call.close 4, Call.unlink "/tmp/t.sock"] := by
  rw [run_worldStaleNoSocket.1, run_worldStaleBindFails.1]
  decide

/-! ## Cleanup -/

/-- C4 fails on the code: when the only `bind` of the run fails with `EACCES`
the cleanup still calls `unlink` on the socket path. -/
theorem cleanup_unlinks_after_failed_bind :
    (RunDaemon optsT worldBindDenied).trace =
      [Call.socket 3, Call.bind 3 (-1), Call.msg "bind()", Call.close 3,
       Call.unlink "/tmp/t.sock"] ∧
    (RunDaemon optsT worldBindDenied).trace.any Call.isBindOk = false ∧
    (cleanup optsT false false 3 true 1).trace = [Call.close 3, Call.unlink "/tmp/t.sock"] ∧
    (RunDaemon optsT worldBindDenied).ret = some 1 := by
  rw [run_worldBindDenied.1, run_worldBindDenied.2]
  decide

/-- C10 fails on the code: on the stale-path retry the descriptor 3 of the
first `socket` call is overwritten by the second and never closed. -/
theorem first_socket_leaked :
    Call.socket 3 ∈ (RunDaemon optsT worldStale).trace ∧
    (RunDaemon optsT worldStale).trace.count (Call.close 3) = 0 ∧
    (RunDaemon optsT worldStale).trace.count (Call.close 4) = 1 ∧
    (RunDaemon optsT worldStale).ret = some 0 := by
  rw [run_worldStale.1, run_worldStale.2]
  decide

/-! ## Command line -/

theorem strcasecmpAux_eq_zero (a b : List Char) :
    strcasecmpAux a b = 0 ↔ a.map Char.toLower = b.map Char.toLower := by
  induction a generalizing b with
  | nil => cases b <;> simp [strcasecmpAux]
  | cons x xs ih =>
    cases b with
    | nil => simp [strcasecmpAux]
    | cons y ys =>
      unfold strcasecmpAux
      by_cases h : x.toLower = y.toLower
      · simp [h, ih]
      · simp only [h, if_false, List.map_cons, List.cons.injEq, false_and, iff_false]
        split <;> decide

theorem strcasecmp_eq_zero (a b : String) : strcasecmp a b = 0 ↔ eqIgnoreCase a b = true := by
  simp [strcasecmp, eqIgnoreCase, strcasecmpAux_eq_zero]

/-- Once `_exit` is set the option loop is left at once. -/
theorem optionLoop_exit (libc : Bool) (l : List (Char × Option String)) (k : Nat)
    (st : ParseState) (h : st._exit = true) : optionLoop libc l k st = LoopEnd.left st k := by
  cases l with
  | nil => rfl
  | cons o more =>
    obtain ⟨c, optarg⟩ := o
    simp [optionLoop, h]

/-- An option loop that is left with `_exit` clear has taken every option and
has changed neither `ret` nor the event. -/
theorem optionLoop_left (libc : Bool) (l : List (Char × Option String)) (k : Nat)
    (st0 st : ParseState) (k1 : Nat) (h : optionLoop libc l k st0 = LoopEnd.left st k1)
    (hex : st._exit = false) :
    k1 = k + l.length ∧ st.ret = st0.ret ∧ st.opts.event = st0.opts.event := by
  induction l generalizing k st0 with
  | nil =>
    simp only [optionLoop, LoopEnd.left.injEq] at h
    simp [← h.1, ← h.2]
  | cons o more ih =>
    obtain ⟨c, optarg⟩ := o
    unfold optionLoop at h
    by_cases h0 : st0._exit = true
    · simp only [h0, if_true, LoopEnd.left.injEq] at h
      rw [← h.1, h0] at hex
      exact absurd hex (by decide)
    simp only [h0, if_false, Bool.false_eq_true] at h
    split_ifs at h with hd hs hn he hsucc hp hsucc2 hv hh
    · have := ih _ _ h
      simpa [Nat.add_assoc, Nat.add_comm 1] using this
    · have := ih _ _ h
      simpa [Nat.add_assoc, Nat.add_comm 1] using this
    · have := ih _ _ h
      simpa [Nat.add_assoc, Nat.add_comm 1] using this
    · have := ih _ _ h
      simpa [Nat.add_assoc, Nat.add_comm 1] using this
    · rw [optionLoop_exit _ _ _ _ rfl] at h
      simp only [LoopEnd.left.injEq] at h
      rw [← h.1] at hex
      simp at hex
    · have := ih _ _ h
      simpa [Nat.add_assoc, Nat.add_comm 1] using this
    · rw [optionLoop_exit _ _ _ _ rfl] at h
      simp only [LoopEnd.left.injEq] at h
      rw [← h.1] at hex
      simp at hex
    · have := ih _ _ h
      simpa [Nat.add_assoc, Nat.add_comm 1] using this

theorem findEvent_EventMap (arg : String) :
    findEvent arg EventMap 0 =
      if eqIgnoreCase arg "DOCK" = true then some 0
      else if eqIgnoreCase arg "UNDOCK" = true then some 1 else none := by
  simp only [findEvent, EventMap, strcasecmp_eq_zero]

theorem eqIgnoreCase_names (arg : String) (h : eqIgnoreCase arg "UNDOCK" = true) :
    eqIgnoreCase arg "DOCK" = false := by
  cases hd : eqIgnoreCase arg "DOCK"
  · rfl
  · simp only [eqIgnoreCase, decide_eq_true_eq] at h hd
    rw [h] at hd
    exact absurd hd (by decide)

/-- C7: when the option loop of `ParseOptions` ends without error and without
`-h`, and `*ret` was 0 at the call as in `main`, `ParseOptions` returns false
with `*ret` still 0 exactly when daemon mode is set and there is no positional
argument, or daemon mode is not set and there is one positional argument that
equals `DOCK` or `UNDOCK` ignoring letter case; `opts.event` is then `DOCK`
respectively `UNDOCK`; in every other case it returns true with `*ret = 1`. -/
theorem positional_rule (libc : Bool) (cl : Cmdline) (errno0 : Nat)
    (hparse : ∃ st k, optionLoop libc cl.getopt 0 (initialState errno0) = LoopEnd.left st k ∧
      st._exit = false) :
    (((ParseOptions libc cl errno0 0).exit = false ∧ (ParseOptions libc cl errno0 0).ret = 0) ↔
      ((ParseOptions libc cl errno0 0).opts.daemon = true ∧ cl.rest cl.getopt.length = []) ∨
      ((ParseOptions libc cl errno0 0).opts.daemon = false ∧
        ∃ a, cl.rest cl.getopt.length = [a] ∧
          (eqIgnoreCase a "DOCK" = true ∨ eqIgnoreCase a "UNDOCK" = true))) ∧
    (∀ a, (ParseOptions libc cl errno0 0).opts.daemon = false →
      cl.rest cl.getopt.length = [a] →
      (eqIgnoreCase a "DOCK" = true → (ParseOptions libc cl errno0 0).opts.event = DOCK) ∧
      (eqIgnoreCase a "UNDOCK" = true → (ParseOptions libc cl errno0 0).opts.event = UNDOCK)) ∧
    (¬ ((ParseOptions libc cl errno0 0).exit = false ∧ (ParseOptions libc cl errno0 0).ret = 0) →
      (ParseOptions libc cl errno0 0).exit = true ∧ (ParseOptions libc cl errno0 0).ret = 1) := by
  obtain ⟨st, k, hloop, hex⟩ := hparse
  obtain ⟨hk, hret, hev⟩ := optionLoop_left libc cl.getopt 0 (initialState errno0) st k hloop hex
  have hk0 : cl.getopt.length = k := by omega
  have hret0 : st.ret = 0 := hret
  have hev0 : st.opts.event = _UNSET := hev
  have hrun : ParseOptions libc cl errno0 0 = afterOptions cl st k := by
    unfold ParseOptions
    have : ({ opts := defaultOpts, ret := 0, _exit := false, errno := errno0 } : ParseState)
        = initialState errno0 := rfl
    rw [this, hloop]
  rw [hrun, hk0]
  unfold afterOptions
  cases hargs : cl.rest k with
  | nil =>
    cases hd : st.opts.daemon <;> simp [hex, hret0, hev0, hd]
  | cons a more =>
    cases more with
    | nil =>
      cases hd : st.opts.daemon
      · by_cases h1 : eqIgnoreCase a "DOCK" = true
        · have h2 : eqIgnoreCase a "UNDOCK" = false := by
            cases h : eqIgnoreCase a "UNDOCK"
            · rfl
            · rw [eqIgnoreCase_names a h] at h1
              exact absurd h1 (by decide)
          simp [findEvent_EventMap, h1, h2, hex, hret0, hd]
        · by_cases h2 : eqIgnoreCase a "UNDOCK" = true
          · simp [findEvent_EventMap, h1, h2, hex, hret0, hd]
          · simp [findEvent_EventMap, h1, h2, hd]
      · simp [hd]
    | cons b more2 =>
      cases hd : st.opts.daemon <;> simp [hd]

/-- The command line `vdockd -v unDock` passes the option loop and selects `UNDOCK`. -/
theorem positional_rule_witness :
    (ParseOptions false cmdUndock 0 0).exit = false ∧
    (ParseOptions false cmdUndock 0 0).opts.event = UNDOCK :=
  have h := positional_rule false cmdUndock 0
    ⟨{ opts := { defaultOpts with verbose := true }, ret := 0, _exit := false, errno := 0 }, 1,
      by decide, rfl⟩
  ⟨(h.1.mpr (Or.inr ⟨by decide, "unDock", rfl, Or.inr (by decide)⟩)).1,
    (h.2.1 "unDock" (by decide) rfl).2 (by decide)⟩

/-- C6 fails on the code: `ParseInt` takes `12z` for the number 12 and reports
success, whether or not the C library sets `EINVAL` when it finds no digits,
so `vdockd -d -e 12z` starts the daemon with vendor id 12; with a C library
that leaves `errno` alone, `abc` and the empty string are taken for 0. -/
theorem ParseInt_accepts_malformed :
    ParseInt false (some "12z") 0 = { ret := 12, success := true, errno := 0 } ∧
    ParseInt true (some "12z") 0 = { ret := 12, success := true, errno := 0 } ∧
    ParseInt false (some "abc") 0 = { ret := 0, success := true, errno := 0 } ∧
    ParseInt false (some "") 0 = { ret := 0, success := true, errno := 0 } ∧
    ParseOptions false cmdVendor12z 0 0 =
      { exit := false, ret := 0, opts := { defaultOpts with vendor := 12, daemon := true } } ∧
    ParseOptions true cmdVendor12z 0 0 =
      { exit := false, ret := 0, opts := { defaultOpts with vendor := 12, daemon := true } } := by
  refine ⟨?_, ?_, ?_, ?_, ?_, ?_⟩ <;> decide

end Vdockd
